import Mathlib

/-!
Verification of `sktime/forecasting/anomaly_detector.py`
(`IntervalBasedAnomalyDetector`): a shallow embedding of the constructor
validation, the clone-and-fit lifecycle, and the per-point label / score
computations of `_predict` and `_predict_proba`, together with theorems
settling the specification claims.

Values and interval bounds are modelled as real numbers; the coverage
parameter as a rational.  Vectorised pandas/numpy operations are modelled
pointwise (one entry of the aligned tables at a time) and lifted to lists
over the query index.
-/

namespace IntervalAnomaly

/-- A training history: the series values the forecaster is fitted on. -/
abbrev History := List ℝ

/-- Modelled from the spec: the external interval-source collaborator
(`BaseForecaster`).  `isBaseForecaster` models the `isinstance` check of the
constructor; `capabilityPredInt` models `get_tag("capability:pred_int")`;
`intervalRule` is the black-box interval computation
`predict_interval(fh, coverage)`, mapping the training history, the coverage
and a query time index to a `(lower, upper)` bound pair; `isFitted` and
`trainedOn` model the collaborator's fitted state.  The collaborator itself
is outside `src/`; only its interface is used by the detector. -/
structure Forecaster where
  isBaseForecaster : Bool
  capabilityPredInt : Bool
  intervalRule : History → ℚ → Nat → ℝ × ℝ
  isFitted : Bool
  trainedOn : Option History

/-- Modelled from the spec: `clone()` returns an independent unfitted copy
with the same configuration (same interval rule and capability flags). -/
def Forecaster.clone (f : Forecaster) : Forecaster :=
  { f with isFitted := false, trainedOn := none }

/-- Modelled from the spec: `fit(history)` on the collaborator produces a
fitted instance remembering the history it was trained on. -/
def Forecaster.fit (f : Forecaster) (X : History) : Forecaster :=
  { f with isFitted := true, trainedOn := some X }

/-- Modelled from the spec: `predict_interval(fh, coverage)` of a fitted
collaborator, giving the `(lower, upper)` bounds at one time index. -/
def Forecaster.predictInterval (f : Forecaster) (coverage : ℚ) (i : Nat) :
    ℝ × ℝ :=
  f.intervalRule (f.trainedOn.getD []) coverage i

/-- The per-point label computation of `_predict`:
`anomalies = (X < lower) | (X > upper)`, converted to an integer. -/
noncomputable def anomalyLabel (value lower upper : ℝ) : ℤ :=
  if value < lower ∨ value > upper then 1 else 0

/-- The per-point score computation of `_predict_proba`:
`center = (upper + lower) / 2`, `width = upper - lower`,
`z = |value - center| / (width / 2)`, `prob = 1 / (1 + exp(-(z - 1)))`. -/
noncomputable def anomalyScore (value lower upper : ℝ) : ℝ :=
  let center := (upper + lower) / 2
  let width := upper - lower
  let z := |value - center| / (width / 2)
  1 / (1 + Real.exp (-(z - 1)))

/-- Errors raised by the constructor (`ValueError` in the source, the spec's
`ConfigurationError`), one per validation clause, in source order. -/
inductive ConfigError
  | notBaseForecaster
  | noPredIntCapability
  | coverageOutOfRange
deriving DecidableEq

/-- Error raised by the predict family before `fit` (the spec's
`NotFittedError`). -/
inductive PredictError
  | notFitted
deriving DecidableEq

/-- The detector: the stored configuration (`self.forecaster`,
`self.coverage`) plus the fitted clone `self.forecaster_`, absent before
`fit`. -/
structure Detector where
  forecaster : Forecaster
  coverage : ℚ
  forecaster_ : Option Forecaster

/-- `__init__`: validates in source order (`isinstance` check, capability
tag check, coverage range check) and otherwise only stores the
configuration; no fitted state is created. -/
def construct (forecaster : Forecaster) (coverage : ℚ) :
    Except ConfigError Detector :=
  if forecaster.isBaseForecaster = false then
    .error .notBaseForecaster
  else if forecaster.capabilityPredInt = false then
    .error .noPredIntCapability
  else if ¬(0 < coverage ∧ coverage < 1) then
    .error .coverageOutOfRange
  else
    .ok { forecaster := forecaster, coverage := coverage, forecaster_ := none }

/-- `_fit`: `self.forecaster_ = self.forecaster.clone();
self.forecaster_.fit(X)`. -/
def Detector.fit (d : Detector) (X : History) : Detector :=
  { d with forecaster_ := some ((d.forecaster.clone).fit X) }

/-- `_predict`, lifted over the query: fetches interval bounds for each
query index from the fitted clone at the configured coverage and applies
the per-point label rule.  The fitted-state gate (`NotFittedError` before
`fit`) is modelled from the spec, since it lives in the `BaseClassifier`
base class rather than in `src/`. -/
noncomputable def Detector.predict (d : Detector) (X : List ℝ) :
    Except PredictError (List ℤ) :=
  match d.forecaster_ with
  | none => .error .notFitted
  | some f =>
    .ok (((List.range X.length).zip X).map fun p =>
      let lu := f.predictInterval d.coverage p.1
      anomalyLabel p.2 lu.1 lu.2)

/-- `_predict_proba`, lifted over the query, with the same fitted-state
gate as `Detector.predict`. -/
noncomputable def Detector.predictProba (d : Detector) (X : List ℝ) :
    Except PredictError (List ℝ) :=
  match d.forecaster_ with
  | none => .error .notFitted
  | some f =>
    .ok (((List.range X.length).zip X).map fun p =>
      let lu := f.predictInterval d.coverage p.1
      anomalyScore p.2 lu.1 lu.2)

/-- The score formula as the spec words it: `center = (upper + lower)/2`,
`half_width = (upper - lower)/2`, `z = |value - center| / half_width`,
`score = 1 / (1 + exp(-(z - 1)))`. -/
noncomputable def specScore (value lower upper : ℝ) : ℝ :=
  let center := (upper + lower) / 2
  let halfWidth := (upper - lower) / 2
  let z := |value - center| / halfWidth
  1 / (1 + Real.exp (-(z - 1)))

/-- A float-like value domain: finite reals, positive infinity, NaN.  Used
to model the IEEE semantics of the unguarded numpy division in
`_predict_proba` at a zero-width interval. -/
inductive FloatVal
  | finite (x : ℝ)
  | posInf
  | nan

/-- Modelled from IEEE-754 semantics of the numpy expression
`np.abs(X - center) / (width / 2)` for a nonnegative numerator:
division by zero yields NaN when the numerator is zero (`0/0`) and
positive infinity when it is positive. -/
noncomputable def ieeeDivNonneg (a b : ℝ) : FloatVal :=
  if b = 0 then (if a = 0 then .nan else .posInf) else .finite (a / b)

/-- Modelled from IEEE-754 semantics of `1 / (1 + np.exp(-(z - 1)))`:
a finite `z` gives the finite logistic value, `z = +inf` gives
`exp(-inf) = 0` hence score `1`, and NaN propagates. -/
noncomputable def ieeeLogistic : FloatVal → FloatVal
  | .finite z => .finite (1 / (1 + Real.exp (-(z - 1))))
  | .posInf => .finite 1
  | .nan => .nan

/-- The per-point score computation of `_predict_proba` under IEEE
floating-point division semantics, exposing the unguarded division by
`width / 2`. -/
noncomputable def anomalyScoreIEEE (value lower upper : ℝ) : FloatVal :=
  let center := (upper + lower) / 2
  let width := upper - lower
  ieeeLogistic (ieeeDivNonneg |value - center| (width / 2))

/-- A concrete interval-capable collaborator whose interval at every index
is `[0, 2]`, used to instantiate the theorems. -/
def sampleForecaster : Forecaster where
  isBaseForecaster := true
  capabilityPredInt := true
  intervalRule := fun _ _ _ => (0, 2)
  isFitted := false
  trainedOn := none

/-- The clone of `sampleForecaster` fitted on the history `[1]`. -/
def sampleFittedClone : Forecaster := (sampleForecaster.clone).fit [1]

/-- A detector holding `sampleForecaster` at coverage `9/10`, already
fitted. -/
def sampleFitted : Detector where
  forecaster := sampleForecaster
  coverage := 9 / 10
  forecaster_ := some sampleFittedClone

/-- A detector holding `sampleForecaster` at coverage `9/10`, not yet
fitted. -/
def sampleUnfitted : Detector where
  forecaster := sampleForecaster
  coverage := 9 / 10
  forecaster_ := none

/-- A collaborator failing the `BaseForecaster` instance check while still
reporting the interval capability. -/
def sampleNonForecaster : Forecaster :=
  { sampleForecaster with isBaseForecaster := false }

end IntervalAnomaly

namespace IntervalAnomaly

/-- The label is `1` exactly on the strict-outside condition. -/
lemma anomalyLabel_eq_one_iff (v l u : ℝ) :
    anomalyLabel v l u = 1 ↔ (v < l ∨ v > u) := by
  unfold anomalyLabel
  split_ifs with h <;> simp [h]

/-- The label is `0` exactly when the strict-outside condition fails. -/
lemma anomalyLabel_eq_zero_iff (v l u : ℝ) :
    anomalyLabel v l u = 0 ↔ ¬(v < l ∨ v > u) := by
  unfold anomalyLabel
  split_ifs with h <;> simp [h]

/-- Unfolding of `anomalyScore` with the lets substituted. -/
lemma anomalyScore_def (v l u : ℝ) :
    anomalyScore v l u =
      1 / (1 + Real.exp (-(|v - (u + l) / 2| / ((u - l) / 2) - 1))) := rfl

/-- The logistic map `z ↦ 1 / (1 + exp(-(z - 1)))` is monotone. -/
lemma logistic_mono {a b : ℝ} (h : a ≤ b) :
    1 / (1 + Real.exp (-(a - 1))) ≤ 1 / (1 + Real.exp (-(b - 1))) := by
  have hb : (0:ℝ) < 1 + Real.exp (-(b - 1)) := by positivity
  apply one_div_le_one_div_of_le hb
  have hle : Real.exp (-(b - 1)) ≤ Real.exp (-(a - 1)) :=
    Real.exp_le_exp.mpr (by linarith)
  linarith

/-- The logistic map exceeds `1/2` exactly beyond its center `z = 1`. -/
lemma logistic_gt_half_iff (z : ℝ) :
    1 / 2 < 1 / (1 + Real.exp (-(z - 1))) ↔ 1 < z := by
  have h1 : (0:ℝ) < 1 + Real.exp (-(z - 1)) := by positivity
  rw [div_lt_div_iff₀ (by norm_num) h1]
  constructor
  · intro h
    have hlt : Real.exp (-(z - 1)) < 1 := by linarith
    have := Real.exp_lt_one_iff.mp hlt
    linarith
  · intro h
    have hlt : Real.exp (-(z - 1)) < 1 := Real.exp_lt_one_iff.mpr (by linarith)
    linarith

/-- A value at the upper bound of a proper interval scores exactly `1/2`. -/
lemma anomalyScore_upper {l u : ℝ} (h : l < u) : anomalyScore u l u = 1 / 2 := by
  rw [anomalyScore_def]
  have habs : |u - (u + l) / 2| = (u - l) / 2 := by
    rw [show u - (u + l) / 2 = (u - l) / 2 by ring]
    exact abs_of_pos (by linarith)
  rw [habs, div_self (by linarith : (u - l) / 2 ≠ 0)]
  norm_num

/-- A value at the lower bound of a proper interval scores exactly `1/2`. -/
lemma anomalyScore_lower {l u : ℝ} (h : l < u) : anomalyScore l l u = 1 / 2 := by
  rw [anomalyScore_def]
  have habs : |l - (u + l) / 2| = (u - l) / 2 := by
    rw [show l - (u + l) / 2 = -((u - l) / 2) by ring, abs_neg]
    exact abs_of_pos (by linarith)
  rw [habs, div_self (by linarith : (u - l) / 2 ≠ 0)]
  norm_num

/-- Claim C1: for every fitted detector and every query, `predict` maps the
per-point label rule over the bounds the interval source returns; for any
bounds with `lower ≤ upper` (including the degenerate `upper = lower`), the
label is `1` exactly when the value is strictly outside the interval and
`0` otherwise; a value equal to the lower or upper bound is labeled `0`;
and at a degenerate interval the computation still proceeds by the
inequality test (label `0` exactly at the single point of the interval). -/
theorem predict_labels_strictly_outside
    (d : Detector) (f : Forecaster) (X : List ℝ)
    (hd : d.forecaster_ = some f) (v l u : ℝ) (hlu : l ≤ u) :
    (d.predict X = .ok (((List.range X.length).zip X).map fun p =>
      anomalyLabel p.2 (f.predictInterval d.coverage p.1).1
        (f.predictInterval d.coverage p.1).2))
    ∧ (anomalyLabel v l u = 1 ↔ (v < l ∨ v > u))
    ∧ (anomalyLabel v l u = 0 ↔ (l ≤ v ∧ v ≤ u))
    ∧ anomalyLabel l l u = 0
    ∧ anomalyLabel u l u = 0
    ∧ (anomalyLabel v u u = 0 ↔ v = u) := by
  refine ⟨?_, anomalyLabel_eq_one_iff v l u, ?_, ?_, ?_, ?_⟩
  · simp [Detector.predict, hd]
  · rw [anomalyLabel_eq_zero_iff]
    push_neg
    exact Iff.rfl
  · rw [anomalyLabel_eq_zero_iff]
    push_neg
    exact ⟨le_refl l, hlu⟩
  · rw [anomalyLabel_eq_zero_iff]
    push_neg
    exact ⟨hlu, le_refl u⟩
  · rw [anomalyLabel_eq_zero_iff]
    push_neg
    constructor
    · intro h
      exact le_antisymm h.2 h.1
    · intro h
      exact ⟨le_of_eq h.symm, le_of_eq h⟩

/-- Claim C2: for bounds with `lower < upper`, the score of `_predict_proba`
is the logistic transform `1 / (1 + exp(-(z - 1)))` of the normalized
distance `z = |value - center| / half_width` with `center = (upper+lower)/2`
and `half_width = (upper-lower)/2` (stated both against the spec-worded
formula `specScore` and in closed form), and a value exactly on either
interval boundary (`z = 1`) receives score `1/2`. -/
theorem predictProba_logistic_formula (v l u : ℝ) (h : l < u) :
    anomalyScore v l u = specScore v l u
    ∧ anomalyScore v l u =
        1 / (1 + Real.exp (-(|v - (u + l) / 2| / ((u - l) / 2) - 1)))
    ∧ anomalyScore u l u = 1 / 2
    ∧ anomalyScore l l u = 1 / 2 :=
  ⟨rfl, rfl, anomalyScore_upper h, anomalyScore_lower h⟩

/-- Claim C3 (code bug evaluation): under IEEE floating-point semantics the
unguarded division of `_predict_proba` at a zero-width interval with the
value at the center computes `0 / 0 = NaN`, and the NaN propagates to the
returned score instead of any deterministic well-defined value. -/
theorem degenerate_interval_propagates_nan :
    anomalyScoreIEEE 10 10 10 = FloatVal.nan := by
  have hb : ((10:ℝ) - 10) / 2 = 0 := by norm_num
  have ha : |(10:ℝ) - (10 + 10) / 2| = 0 := by norm_num
  simp [anomalyScoreIEEE, ieeeDivNonneg, ha, hb, ieeeLogistic]

/-- Claim C4: for bounds with `lower < upper`, the label of `_predict` is
`1` exactly when the score of `_predict_proba` is strictly greater than
`1/2` (equivalently `z > 1`); at the boundary (`z = 1`) the score is
exactly `1/2` and the label is `0`. -/
theorem predict_label_iff_score_gt_half (v l u : ℝ) (h : l < u) :
    (anomalyLabel v l u = 1 ↔ 1 / 2 < anomalyScore v l u)
    ∧ anomalyScore u l u = 1 / 2 ∧ anomalyLabel u l u = 0
    ∧ anomalyScore l l u = 1 / 2 ∧ anomalyLabel l l u = 0 := by
  have hw : (0:ℝ) < (u - l) / 2 := by linarith
  refine ⟨?_, anomalyScore_upper h, ?_, anomalyScore_lower h, ?_⟩
  · rw [anomalyLabel_eq_one_iff, anomalyScore_def, logistic_gt_half_iff,
      one_lt_div hw, lt_abs]
    constructor
    · rintro (h1 | h1)
      · right
        linarith
      · left
        linarith
    · rintro (h1 | h1)
      · right
        linarith
      · left
        linarith
  · rw [anomalyLabel_eq_zero_iff]
    push_neg
    exact ⟨le_of_lt h, le_refl u⟩
  · rw [anomalyLabel_eq_zero_iff]
    push_neg
    exact ⟨le_refl l, le_of_lt h⟩

/-- Claim C5: for fixed bounds with `lower < upper`, the score of
`_predict_proba` is monotone non-decreasing in the distance of the value
from the interval center `(upper + lower) / 2`. -/
theorem predictProba_monotone_in_distance (v1 v2 l u : ℝ) (h : l < u)
    (hv : |v1 - (u + l) / 2| ≤ |v2 - (u + l) / 2|) :
    anomalyScore v1 l u ≤ anomalyScore v2 l u := by
  have hw : (0:ℝ) < (u - l) / 2 := by linarith
  rw [anomalyScore_def, anomalyScore_def]
  exact logistic_mono ((div_le_div_iff_of_pos_right hw).mpr hv)

/-- Claim C10: for bounds with `lower < upper`, the score of
`_predict_proba` is at least `1 / (1 + e)`, with equality exactly attained
at the interval center (`z = 0`), and is strictly below `1` for every
value. -/
theorem predictProba_score_bounds (v l u : ℝ) (h : l < u) :
    1 / (1 + Real.exp 1) ≤ anomalyScore v l u
    ∧ anomalyScore ((u + l) / 2) l u = 1 / (1 + Real.exp 1)
    ∧ anomalyScore v l u < 1 := by
  have hw : (0:ℝ) < (u - l) / 2 := by linarith
  have hz : 0 ≤ |v - (u + l) / 2| / ((u - l) / 2) :=
    div_nonneg (abs_nonneg _) hw.le
  refine ⟨?_, ?_, ?_⟩
  · rw [anomalyScore_def]
    calc 1 / (1 + Real.exp 1)
        = 1 / (1 + Real.exp (-((0:ℝ) - 1))) := by norm_num
      _ ≤ _ := logistic_mono hz
  · rw [anomalyScore_def]
    rw [show (u + l) / 2 - (u + l) / 2 = (0:ℝ) by ring]
    rw [abs_zero, zero_div]
    norm_num
  · rw [anomalyScore_def]
    have h1 : (0:ℝ) <
        1 + Real.exp (-(|v - (u + l) / 2| / ((u - l) / 2) - 1)) := by
      positivity
    rw [div_lt_one h1]
    have := Real.exp_pos (-(|v - (u + l) / 2| / ((u - l) / 2) - 1))
    linarith

/-- Claim C6: for a genuine `BaseForecaster` argument, construction
succeeds exactly when the collaborator declares the prediction-interval
capability and the coverage lies strictly between `0` and `1`; the missing
capability or an out-of-range coverage each raise the corresponding
configuration error; and a successful construction only stores the
configuration: the template and coverage are stored unchanged and no
fitted state exists. -/
theorem construct_validates (f : Forecaster) (c : ℚ)
    (hf : f.isBaseForecaster = true) :
    ((∃ d, construct f c = .ok d) ↔
      (f.capabilityPredInt = true ∧ 0 < c ∧ c < 1))
    ∧ (∀ d, construct f c = .ok d →
        d.forecaster = f ∧ d.coverage = c ∧ d.forecaster_ = none)
    ∧ (f.capabilityPredInt = false →
        construct f c = .error .noPredIntCapability)
    ∧ (f.capabilityPredInt = true → ¬(0 < c ∧ c < 1) →
        construct f c = .error .coverageOutOfRange) := by
  cases hcap : f.capabilityPredInt with
  | false =>
    refine ⟨?_, ?_, fun _ => ?_, fun htrue _ => ?_⟩
    · simp [construct, hf, hcap]
    · intro d hd
      simp [construct, hf, hcap] at hd
    · simp [construct, hf, hcap]
    · simp at htrue
  | true =>
    by_cases hc : 0 < c ∧ c < 1
    · refine ⟨?_, ?_, fun hfalse => ?_, fun _ hnc => absurd hc hnc⟩
      · simp [construct, hf, hcap, hc]
      · intro d hd
        simp [construct, hf, hcap, hc] at hd
        exact ⟨hd.symm ▸ rfl, hd.symm ▸ rfl, hd.symm ▸ rfl⟩
      · simp at hfalse
    · refine ⟨?_, ?_, fun hfalse => ?_, fun _ _ => ?_⟩
      · simp [construct, hf, hcap, hc]
      · intro d hd
        simp [construct, hf, hcap, hc] at hd
      · simp at hfalse
      · simp [construct, hf, hcap, hc]

/-- Claim C7: with no fitted state, both `predict` and `predict_proba`
fail with the not-fitted error, and after a `fit` the detector holds a
fitted state in which both calls succeed. -/
theorem predict_requires_fit (d : Detector) (X : List ℝ) (H : History)
    (hun : d.forecaster_ = none) :
    d.predict X = .error .notFitted
    ∧ d.predictProba X = .error .notFitted
    ∧ ((d.fit H).forecaster_).isSome = true
    ∧ (∃ ys, (d.fit H).predict X = .ok ys)
    ∧ (∃ ps, (d.fit H).predictProba X = .ok ps) := by
  refine ⟨?_, ?_, rfl, ⟨_, rfl⟩, ⟨_, rfl⟩⟩
  · simp [Detector.predict, hun]
  · simp [Detector.predictProba, hun]

/-- Claim C8: `fit` stores as fitted state a fitted clone of the template
and touches nothing else: the stored template and coverage are unchanged,
the clone starts unfitted with the template's interval rule and capability,
and the stored clone is fitted exactly on the supplied history. -/
theorem fit_clones_template (d : Detector) (H : History) :
    (d.fit H).forecaster = d.forecaster
    ∧ (d.fit H).coverage = d.coverage
    ∧ (d.fit H).forecaster_ = some ((d.forecaster.clone).fit H)
    ∧ (d.forecaster.clone).isFitted = false
    ∧ (d.forecaster.clone).trainedOn = none
    ∧ (d.forecaster.clone).intervalRule = d.forecaster.intervalRule
    ∧ (d.forecaster.clone).capabilityPredInt = d.forecaster.capabilityPredInt
    ∧ ((d.forecaster.clone).fit H).isFitted = true
    ∧ ((d.forecaster.clone).fit H).trainedOn = some H :=
  ⟨rfl, rfl, rfl, rfl, rfl, rfl, rfl, rfl, rfl⟩

/-- Claim C9: a collaborator failing the `BaseForecaster` instance check is
rejected with the instance-check error for every coverage and every
capability flag, so the type check fires before the capability and
coverage checks. -/
theorem construct_rejects_non_forecaster (f : Forecaster) (c : ℚ)
    (hf : f.isBaseForecaster = false) :
    construct f c = .error .notBaseForecaster := by
  simp [construct, hf]

/-- Concrete instantiation of `predict_labels_strictly_outside` at a fitted
detector with interval `[0, 2]`, query `[3]` and the point
`(v, l, u) = (3, 0, 2)`. -/
theorem predict_labels_strictly_outside_witness :
    sampleFitted.forecaster_ = some sampleFittedClone
    ∧ (0:ℝ) ≤ 2
    ∧ ((sampleFitted.predict [3] =
        .ok (((List.range ([3] : List ℝ).length).zip [3]).map fun p =>
          anomalyLabel p.2
            (sampleFittedClone.predictInterval sampleFitted.coverage p.1).1
            (sampleFittedClone.predictInterval sampleFitted.coverage p.1).2))
      ∧ (anomalyLabel 3 0 2 = 1 ↔ ((3:ℝ) < 0 ∨ (3:ℝ) > 2))
      ∧ (anomalyLabel 3 0 2 = 0 ↔ ((0:ℝ) ≤ 3 ∧ (3:ℝ) ≤ 2))
      ∧ anomalyLabel 0 0 2 = 0
      ∧ anomalyLabel 2 0 2 = 0
      ∧ (anomalyLabel 3 2 2 = 0 ↔ (3:ℝ) = 2)) :=
  ⟨rfl, by norm_num,
    predict_labels_strictly_outside sampleFitted sampleFittedClone [3] rfl
      3 0 2 (by norm_num)⟩

/-- Concrete instantiation of `predictProba_logistic_formula` at
`(v, l, u) = (3, 0, 2)`. -/
theorem predictProba_logistic_formula_witness :
    (0:ℝ) < 2
    ∧ (anomalyScore 3 0 2 = specScore 3 0 2
      ∧ anomalyScore 3 0 2 =
          1 / (1 + Real.exp (-(|(3:ℝ) - (2 + 0) / 2| / ((2 - 0) / 2) - 1)))
      ∧ anomalyScore 2 0 2 = 1 / 2
      ∧ anomalyScore 0 0 2 = 1 / 2) :=
  ⟨by norm_num, predictProba_logistic_formula 3 0 2 (by norm_num)⟩

/-- Concrete instantiation of `predict_label_iff_score_gt_half` at
`(v, l, u) = (3, 0, 2)`. -/
theorem predict_label_iff_score_gt_half_witness :
    (0:ℝ) < 2
    ∧ ((anomalyLabel 3 0 2 = 1 ↔ 1 / 2 < anomalyScore 3 0 2)
      ∧ anomalyScore 2 0 2 = 1 / 2 ∧ anomalyLabel 2 0 2 = 0
      ∧ anomalyScore 0 0 2 = 1 / 2 ∧ anomalyLabel 0 0 2 = 0) :=
  ⟨by norm_num, predict_label_iff_score_gt_half 3 0 2 (by norm_num)⟩

/-- Concrete instantiation of `predictProba_monotone_in_distance` at
bounds `[0, 2]` and values `1` (on the center) and `3`. -/
theorem predictProba_monotone_in_distance_witness :
    (0:ℝ) < 2
    ∧ |(1:ℝ) - (2 + 0) / 2| ≤ |(3:ℝ) - (2 + 0) / 2|
    ∧ anomalyScore 1 0 2 ≤ anomalyScore 3 0 2 :=
  ⟨by norm_num, by norm_num,
    predictProba_monotone_in_distance 1 3 0 2 (by norm_num) (by norm_num)⟩

/-- Concrete instantiation of `construct_validates` at `sampleForecaster`
and coverage `1/2`. -/
theorem construct_validates_witness :
    sampleForecaster.isBaseForecaster = true
    ∧ (((∃ d, construct sampleForecaster (1/2) = .ok d) ↔
        (sampleForecaster.capabilityPredInt = true
          ∧ 0 < (1/2 : ℚ) ∧ (1/2 : ℚ) < 1))
      ∧ (∀ d, construct sampleForecaster (1/2) = .ok d →
          d.forecaster = sampleForecaster ∧ d.coverage = 1/2
            ∧ d.forecaster_ = none)
      ∧ (sampleForecaster.capabilityPredInt = false →
          construct sampleForecaster (1/2) = .error .noPredIntCapability)
      ∧ (sampleForecaster.capabilityPredInt = true →
          ¬(0 < (1/2 : ℚ) ∧ (1/2 : ℚ) < 1) →
          construct sampleForecaster (1/2) = .error .coverageOutOfRange)) :=
  ⟨rfl, construct_validates sampleForecaster (1/2) rfl⟩

/-- Concrete instantiation of `predict_requires_fit` at the unfitted sample
detector, query `[3]` and history `[1]`. -/
theorem predict_requires_fit_witness :
    sampleUnfitted.forecaster_ = none
    ∧ (sampleUnfitted.predict [3] = .error .notFitted
      ∧ sampleUnfitted.predictProba [3] = .error .notFitted
      ∧ ((sampleUnfitted.fit [1]).forecaster_).isSome = true
      ∧ (∃ ys, (sampleUnfitted.fit [1]).predict [3] = .ok ys)
      ∧ (∃ ps, (sampleUnfitted.fit [1]).predictProba [3] = .ok ps)) :=
  ⟨rfl, predict_requires_fit sampleUnfitted [3] [1] rfl⟩

/-- Concrete instantiation of `construct_rejects_non_forecaster` at a
capability-reporting non-forecaster and the (also invalid) coverage `3/2`:
the instance-check error wins. -/
theorem construct_rejects_non_forecaster_witness :
    sampleNonForecaster.isBaseForecaster = false
    ∧ construct sampleNonForecaster (3/2) = .error .notBaseForecaster :=
  ⟨rfl, construct_rejects_non_forecaster sampleNonForecaster (3/2) rfl⟩

/-- Concrete instantiation of `predictProba_score_bounds` at
`(v, l, u) = (3, 0, 2)`. -/
theorem predictProba_score_bounds_witness :
    (0:ℝ) < 2
    ∧ (1 / (1 + Real.exp 1) ≤ anomalyScore 3 0 2
      ∧ anomalyScore ((2 + 0) / 2) 0 2 = 1 / (1 + Real.exp 1)
      ∧ anomalyScore 3 0 2 < 1) :=
  ⟨by norm_num, predictProba_score_bounds 3 0 2 (by norm_num)⟩

end IntervalAnomaly
